import Mathlib

/-!
Verification development for the ViSP keypoint matching and pose estimation
pipeline (class vpKeyPoint, file src/key-point/vpKeyPoint.h).

Conventions of the embedding:
- C++ double values are modelled as rational numbers, so that every stored
  numeric value is exact and every comparison is the exact comparison the
  hardware performs on the given inputs.
- A C++ method that can throw vpException is modelled as a function into
  Except VpError. An error result models a thrown exception: the object is
  observably unchanged in that case, because the mutation only happens in the
  success branch of the source.
- Methods whose bodies appear inline in vpKeyPoint.h are translated directly
  from that source. Methods whose implementation file is not part of the
  repository snapshot (only their declarations are) are modelled from the
  specification; each such definition carries a doc comment starting with
  the words Modelled from the spec.
-/

namespace VpKeyPoint

/-- Error taxonomy. The constructor badValue models vpException::badValue
thrown by the inline setters of vpKeyPoint.h; the remaining constructors
model the error taxonomy of the specification for the parts of the pipeline
whose implementation file is not in the snapshot. -/
inductive VpError where
  | badValue
  | sizeMismatchError
  | invalidParameterError
  | preconditionError
  | insufficientCorrespondencesError
  | poseNotFoundError
  | noMatchesError
  | corruptFormatError
deriving DecidableEq

/-- Filtering method identifier, translated from the vpFilterMatchingType
enum of vpKeyPoint.h. -/
inductive vpFilterMatchingType where
  | constantFactorDistanceThreshold
  | stdDistanceThreshold
  | ratioDistanceThreshold
  | stdAndRatioDistanceThreshold
  | noFilterMatching
deriving DecidableEq

/-- State of the descriptor matcher object referenced by the smart pointer
m_matcher. Only the crossCheck property, set by setUseBruteForceCrossCheck,
is observable in the claims. -/
structure MatcherState where
  crossCheck : Bool
deriving DecidableEq

/-- Configuration and result state of a vpKeyPoint object: the member fields
of vpKeyPoint.h that the claims are about. The covariance matrix is a list
of rows of rationals; the empty list models a default-constructed vpMatrix.
The m_matcher field is none while the matcher smart pointer is NULL. -/
structure KeyPointState where
  m_computeCovariance : Bool
  m_covarianceMatrix : List (List ℚ)
  m_filterType : vpFilterMatchingType
  m_matcher : Option MatcherState
  m_matcherName : String
  m_matchingFactorThreshold : ℚ
  m_matchingRatioThreshold : ℚ
  m_nbRansacIterations : Int
  m_nbRansacMinInlierCount : Int
  m_ransacConsensusPercentage : ℚ
  m_ransacReprojectionError : ℚ
  m_ransacThreshold : ℚ
  m_useConsensusPercentage : Bool
  m_useKnn : Bool
  m_useRansacVVS : Bool
deriving DecidableEq

/-- Machine epsilon of the C++ double type, the value of
std::numeric_limits of double epsilon(), which is 2 to the power -52. -/
def epsD : ℚ := 1 / 2 ^ 52

/-- Default-constructed vpMatrix, as returned by the early-out branches of
getCovarianceMatrix. -/
def vpMatrixEmpty : List (List ℚ) := []

/-- Translation of getCovarianceMatrix from vpKeyPoint.h (lines 289-303):
two guard branches return an empty matrix with a printed warning (printing
is not observable state and is not modelled); only when the covariance flag
is set and the ViSP VVS estimator is selected is the stored matrix returned.
The function is total: no branch throws. -/
def getCovarianceMatrix (s : KeyPointState) : List (List ℚ) :=
  if ¬ s.m_computeCovariance then vpMatrixEmpty
  else if s.m_computeCovariance ∧ ¬ s.m_useRansacVVS then vpMatrixEmpty
  else s.m_covarianceMatrix

/-- Translation of setFilterMatchingType from vpKeyPoint.h (lines 575-585):
stores the filter type and enables knn matching exactly for the two
ratio-based filter types. -/
def setFilterMatchingType (s : KeyPointState) (filterType : vpFilterMatchingType) :
    KeyPointState :=
  let s1 := { s with m_filterType := filterType }
  if filterType = .ratioDistanceThreshold ∨ filterType = .stdAndRatioDistanceThreshold then
    { s1 with m_useKnn := true }
  else
    { s1 with m_useKnn := false }

/-- Translation of setMatchingFactorThreshold from vpKeyPoint.h
(lines 592-598). -/
def setMatchingFactorThreshold (s : KeyPointState) (factor : ℚ) :
    Except VpError KeyPointState :=
  if 0 < factor then .ok { s with m_matchingFactorThreshold := factor }
  else .error .badValue

/-- Translation of setMatchingRatioThreshold from vpKeyPoint.h
(lines 605-611): the ratio is accepted when it is positive and either
strictly below 1 or within machine epsilon of 1. -/
def setMatchingRatioThreshold (s : KeyPointState) (r : ℚ) :
    Except VpError KeyPointState :=
  if 0 < r ∧ (r < 1 ∨ |r - 1| < epsD) then
    .ok { s with m_matchingRatioThreshold := r }
  else .error .badValue

/-- Translation of setRansacConsensusPercentage from vpKeyPoint.h
(lines 618-624). -/
def setRansacConsensusPercentage (s : KeyPointState) (percentage : ℚ) :
    Except VpError KeyPointState :=
  if 0 < percentage ∧ (percentage < 100 ∨ |percentage - 100| < epsD) then
    .ok { s with m_ransacConsensusPercentage := percentage }
  else .error .badValue

/-- Translation of setRansacIteration from vpKeyPoint.h (lines 631-637). -/
def setRansacIteration (s : KeyPointState) (nbIter : Int) :
    Except VpError KeyPointState :=
  if 0 < nbIter then .ok { s with m_nbRansacIterations := nbIter }
  else .error .badValue

/-- Translation of setRansacReprojectionError from vpKeyPoint.h
(lines 644-650). -/
def setRansacReprojectionError (s : KeyPointState) (reprojectionError : ℚ) :
    Except VpError KeyPointState :=
  if 0 < reprojectionError then
    .ok { s with m_ransacReprojectionError := reprojectionError }
  else .error .badValue

/-- Translation of setRansacMinInlierCount from vpKeyPoint.h
(lines 657-663). -/
def setRansacMinInlierCount (s : KeyPointState) (minCount : Int) :
    Except VpError KeyPointState :=
  if 0 < minCount then .ok { s with m_nbRansacMinInlierCount := minCount }
  else .error .badValue

/-- Translation of setRansacThreshold from vpKeyPoint.h (lines 670-676). -/
def setRansacThreshold (s : KeyPointState) (threshold : ℚ) :
    Except VpError KeyPointState :=
  if 0 < threshold then .ok { s with m_ransacThreshold := threshold }
  else .error .badValue

/-- Translation of setUseBruteForceCrossCheck from vpKeyPoint.h
(lines 684-689): the crossCheck property of the matcher is set only when the
matcher pointer is not NULL, knn matching is disabled and the matcher name
is exactly BruteForce; in every other case the call does nothing and throws
nothing. -/
def setUseBruteForceCrossCheck (s : KeyPointState) (useCrossCheck : Bool) :
    KeyPointState :=
  match s.m_matcher with
  | some m =>
      if s.m_useKnn = false ∧ s.m_matcherName = "BruteForce" then
        { s with m_matcher := some { m with crossCheck := useCrossCheck } }
      else s
  | none => s

/-- Raw correspondence between a query descriptor and a train descriptor
(data model of the spec, Correspondence): query index, train index,
descriptor distance, and, when the k-nearest-neighbor pass ran, the
second-best distance for the same query index (none when only a k equal 1
pass ran). -/
structure RawMatch where
  queryIdx : Int
  trainIdx : Int
  distance : ℚ
  distance2 : Option ℚ
deriving DecidableEq

/-- Minimum descriptor distance over a list of raw matches. The empty list
never occurs in the filtering contract (the raw match set is non-empty);
the value 0 for the empty list is an arbitrary default. -/
def minDist : List RawMatch → ℚ
  | [] => 0
  | [m] => m.distance
  | m :: m2 :: ms => min m.distance (minDist (m2 :: ms))

/-- Mean of the descriptor distances of a list of raw matches. -/
def meanDist (l : List RawMatch) : ℚ :=
  (l.map (fun m => m.distance)).sum / l.length

/-- Population variance of the descriptor distances of a list of raw
matches; its square root is the standard deviation used by the
stdDistanceThreshold policy. -/
def varianceDist (l : List RawMatch) : ℚ :=
  (l.map (fun m => (m.distance - meanDist l) ^ 2)).sum / l.length

/-- Modelled from the spec (Match Filter contract): the
constantFactorDistanceThreshold policy keeps a match iff its distance is
strictly below dmin times the factor. -/
def keepConstantFactor (dmin factor : ℚ) (m : RawMatch) : Bool :=
  decide (m.distance < dmin * factor)

/-- Modelled from the spec (Match Filter contract): the
stdDistanceThreshold policy keeps a match iff distance is strictly below
dmin plus the standard deviation of all distances. Since every distance of
the list is at least dmin and the variance is nonnegative, the condition
distance < dmin + sqrt variance is equivalent to the square-free condition
used here; the lemma keepStd_iff_real below proves this equivalence. -/
def keepStd (dmin variance : ℚ) (m : RawMatch) : Bool :=
  decide ((m.distance - dmin) ^ 2 < variance)

/-- Modelled from the spec (Match Filter contract): the
ratioDistanceThreshold policy keeps a match iff the ratio of its distance to
the second-best distance for the same query index is strictly below the
configured ratio. A match without a recorded second-best distance is never
kept by this predicate; the filter itself rejects such inputs with a
precondition error before this predicate is consulted. -/
def keepRatio (r : ℚ) (m : RawMatch) : Bool :=
  match m.distance2 with
  | some d2 => decide (m.distance / d2 < r)
  | none => false

/-- Modelled from the spec: filterMatches, whose implementation file is not
in the repository snapshot (vpKeyPoint.h line 814 only declares it). The
Match Filter contract of the spec defines the five policies:
constantFactorDistanceThreshold keeps a match iff distance < dmin * factor
and requires factor > 0; stdDistanceThreshold keeps a match iff
distance < dmin + stddev of all distances; ratioDistanceThreshold requires
the ratio in the interval (0, 1] and a second-nearest-neighbor pass, and
keeps a match iff distance1 / distance2 < ratio;
stdAndRatioDistanceThreshold keeps a match iff at least one of the two
previous conditions holds (logical OR); noFilterMatching returns the raw
matches unchanged. -/
def filterMatches (policy : vpFilterMatchingType) (factor r : ℚ)
    (l : List RawMatch) : Except VpError (List RawMatch) :=
  match policy with
  | .constantFactorDistanceThreshold =>
      if factor ≤ 0 then .error .invalidParameterError
      else .ok (l.filter (keepConstantFactor (minDist l) factor))
  | .stdDistanceThreshold =>
      .ok (l.filter (keepStd (minDist l) (varianceDist l)))
  | .ratioDistanceThreshold =>
      if r ≤ 0 ∨ 1 < r then .error .invalidParameterError
      else if l.any (fun m => m.distance2 = none) then .error .preconditionError
      else .ok (l.filter (keepRatio r))
  | .stdAndRatioDistanceThreshold =>
      if r ≤ 0 ∨ 1 < r then .error .invalidParameterError
      else if l.any (fun m => m.distance2 = none) then .error .preconditionError
      else .ok (l.filter (fun m =>
        keepStd (minDist l) (varianceDist l) m || keepRatio r m))
  | .noFilterMatching => .ok l

/-- Sub-pixel 2-D image location of a keypoint (data model of the spec). -/
structure KeyPoint2D where
  x : ℚ
  y : ℚ
deriving DecidableEq

/-- A 3-D coordinate in the object reference frame (data model of the
spec, Object Point). -/
structure Point3D where
  px : ℚ
  py : ℚ
  pz : ℚ
deriving DecidableEq

/-- Reference Model Store (data model of the spec): the accumulated train
keypoints, the train descriptor matrix (one row of rational descriptor
values per keypoint), the 3-D object points (none models an absent or unset
object point, the per-point presence flag of the persisted layout), and the
per-keypoint source image identifier (member m_mapOfImageId of
vpKeyPoint.h, keyed by keypoint index). -/
structure RefModelStore where
  trainKeyPoints : List KeyPoint2D
  trainDescriptors : List (List ℚ)
  trainPoints : List (Option Point3D)
  trainImageIds : List Int
deriving DecidableEq

/-- Cross-collection invariant of the Reference Model Store: the four train
collections have equal lengths. -/
def storeInvariant (s : RefModelStore) : Prop :=
  s.trainKeyPoints.length = s.trainDescriptors.length ∧
  s.trainKeyPoints.length = s.trainPoints.length ∧
  s.trainKeyPoints.length = s.trainImageIds.length

instance (s : RefModelStore) : Decidable (storeInvariant s) := by
  unfold storeInvariant
  infer_instance

/-- Reference Model Store with empty collections, the state after init()
of a fresh vpKeyPoint object. -/
def emptyStore : RefModelStore :=
  { trainKeyPoints := [], trainDescriptors := [], trainPoints := [],
    trainImageIds := [] }

/-- Modelled from the spec: the training append of
buildReference(I, trainKeyPoint, points3f, append), whose implementation
file is not in the repository snapshot (vpKeyPoint.h lines 239-240 only
declare it). The Reference Model Store contract of the spec: append fails
with a size-mismatch error when the keypoint count differs from the
descriptor row count or, when object points are supplied, from the object
point count; on failure nothing is mutated (the error result models the
thrown exception, the store stays as it was); on success the batch is
appended to all four collections, each keypoint tagged with the supplied
image identifier, absent object points recorded as none. -/
def appendTraining (s : RefModelStore) (kps : List KeyPoint2D)
    (descs : List (List ℚ)) (pts : Option (List Point3D)) (imageId : Int) :
    Except VpError RefModelStore :=
  if kps.length ≠ descs.length then .error .sizeMismatchError
  else
    match pts with
    | some ps =>
        if kps.length ≠ ps.length then .error .sizeMismatchError
        else .ok
          { trainKeyPoints := s.trainKeyPoints ++ kps,
            trainDescriptors := s.trainDescriptors ++ descs,
            trainPoints := s.trainPoints ++ ps.map some,
            trainImageIds :=
              s.trainImageIds ++ List.replicate kps.length imageId }
    | none => .ok
        { trainKeyPoints := s.trainKeyPoints ++ kps,
          trainDescriptors := s.trainDescriptors ++ descs,
          trainPoints := s.trainPoints ++ List.replicate kps.length none,
          trainImageIds :=
            s.trainImageIds ++ List.replicate kps.length imageId }

/-- Format version written at the head of the learning data file. -/
def formatVersion : ℚ := 2

/-- Code of the descriptor element type written in the header (the spec
header field descriptorElementType; a fixed code in this model, since the
descriptor values themselves are modelled as exact rationals). -/
def descriptorElementType : ℚ := 5

/-- Width of the descriptor rows of a store (the spec header field
descriptorWidth); every row of a well-formed store has this length. -/
def descWidth (s : RefModelStore) : ℕ :=
  match s.trainDescriptors with
  | [] => 0
  | row :: _ => row.length

/-- Concatenation of the encodings of a list of items. -/
def encList {α : Type} (enc : α → List ℚ) : List α → List ℚ
  | [] => []
  | a :: as => enc a ++ encList enc as

/-- Encoding of one keypoint: its two coordinates. -/
def encKeyPoint (k : KeyPoint2D) : List ℚ := [k.x, k.y]

/-- Encoding of one object point as the presence flag followed by three
coordinates (the spec persisted layout: object points with a presence flag
per point); an absent point is written as flag 0 with zero coordinates. -/
def encPoint3 : Option Point3D → List ℚ
  | none => [0, 0, 0, 0]
  | some p => [1, p.px, p.py, p.pz]

/-- Encoding of one training image identifier. -/
def encId (i : Int) : List ℚ := [(i : ℚ)]

/-- Interpretation of a stored token as a natural count: the token must be
an integer-valued nonnegative rational. -/
def parseNat (q : ℚ) : Option ℕ :=
  if q.den = 1 ∧ 0 ≤ q.num then some q.num.toNat else none

/-- Decoder of one descriptor row of width w. -/
def decDesc (w : ℕ) (data : List ℚ) : Option (List ℚ × List ℚ) :=
  if data.length < w then none else some (data.take w, data.drop w)

/-- Decoder of one keypoint. -/
def decKeyPoint : List ℚ → Option (KeyPoint2D × List ℚ)
  | x :: y :: rest => some (⟨x, y⟩, rest)
  | _ => none

/-- Decoder of one object point entry: presence flag then three
coordinates. A flag other than 0 or 1 is a format error. -/
def decPoint3 : List ℚ → Option (Option Point3D × List ℚ)
  | f :: x :: y :: z :: rest =>
      if f = 1 then some (some ⟨x, y, z⟩, rest)
      else if f = 0 then some (none, rest)
      else none
  | _ => none

/-- Decoder of one training image identifier: the token must be
integer-valued. -/
def decId : List ℚ → Option (Int × List ℚ)
  | q :: rest => if q.den = 1 then some (q.num, rest) else none
  | _ => none

/-- Reader of n consecutive items with a given single-item decoder,
returning the items and the remaining tokens. -/
def readItems {α : Type} (dec : List ℚ → Option (α × List ℚ)) :
    ℕ → List ℚ → Option (List α × List ℚ)
  | 0, data => some ([], data)
  | n + 1, data =>
      match dec data with
      | some (a, rest) =>
          match readItems dec n rest with
          | some (as, rest2) => some (a :: as, rest2)
          | none => none
      | none => none

/-- Concatenation of two stores, the append mode of loading. -/
def concatStores (s t : RefModelStore) : RefModelStore :=
  { trainKeyPoints := s.trainKeyPoints ++ t.trainKeyPoints,
    trainDescriptors := s.trainDescriptors ++ t.trainDescriptors,
    trainPoints := s.trainPoints ++ t.trainPoints,
    trainImageIds := s.trainImageIds ++ t.trainImageIds }

/-- Modelled from the spec: saveLearningData, whose implementation file is
not in the repository snapshot (vpKeyPoint.h line 444 only declares it).
The persisted layout of the spec is written as a stream of numeric tokens:
a header carrying the format version, the element count, the descriptor
element type and the descriptor width, then the descriptor matrix, the
keypoint 2-D positions, the object points each with a presence flag, and
the training image identifiers. The binaryMode flag selects the physical
encoding of each token (fixed-width little-endian bytes versus printed
text); both encodings carry exactly this logical token stream, which is
what the model captures, so the flag does not change the stream. Embedded
training images (saveTrainingImages) are outside the modelled store. -/
def serializeStore (s : RefModelStore) (binaryMode : Bool) : List ℚ :=
  [formatVersion, (s.trainKeyPoints.length : ℚ), descriptorElementType,
    (descWidth s : ℚ)]
  ++ encList id s.trainDescriptors
  ++ encList encKeyPoint s.trainKeyPoints
  ++ encList encPoint3 s.trainPoints
  ++ encList encId s.trainImageIds

/-- Modelled from the spec: loadLearningData, whose implementation file is
not in the repository snapshot (vpKeyPoint.h line 422 only declares it).
The loader checks the header, reads the four sections announced by the
element count, and fails with a corrupt-format error on a malformed header,
inconsistent counts or a truncated stream; on success it either replaces
the store contents (appendMode false) or appends to them (appendMode
true). The all-or-nothing discipline of the spec holds by construction: an
error result leaves the prior store untouched. -/
def deserializeStore (binaryMode : Bool) (appendMode : Bool)
    (prior : RefModelStore) (data : List ℚ) : Except VpError RefModelStore :=
  match data with
  | v :: cnt :: ty :: wq :: rest =>
      if v ≠ formatVersion then .error .corruptFormatError
      else if ty ≠ descriptorElementType then .error .corruptFormatError
      else
        match parseNat cnt, parseNat wq with
        | some n, some w =>
            match readItems (decDesc w) n rest with
            | some (descs, r1) =>
                match readItems decKeyPoint n r1 with
                | some (kps, r2) =>
                    match readItems decPoint3 n r2 with
                    | some (pts, r3) =>
                        match readItems decId n r3 with
                        | some (ids, r4) =>
                            if r4 = [] then
                              let loaded : RefModelStore :=
                                { trainKeyPoints := kps,
                                  trainDescriptors := descs,
                                  trainPoints := pts,
                                  trainImageIds := ids }
                              if appendMode then .ok (concatStores prior loaded)
                              else .ok loaded
                            else .error .corruptFormatError
                        | none => .error .corruptFormatError
                    | none => .error .corruptFormatError
                | none => .error .corruptFormatError
            | none => .error .corruptFormatError
        | _, _ => .error .corruptFormatError
  | _ => .error .corruptFormatError

/-- Best score of the RANSAC sampling loop: the loop tracks the best inlier
count seen so far, starting from zero, keeping the first candidate that
reaches the maximum. -/
def bestScore (scores : List ℕ) : ℕ := scores.foldl max 0

/-- Consensus floor of the acceptance step (Pose Estimator contract of the
spec): either the absolute floor minInlierCount, or the floor derived from
the consensus percentage of the total correspondence count, whichever
policy is active. -/
def consensusFloor (useConsensusPercentage : Bool) (minInlierCount : ℕ)
    (consensusPercentage : ℚ) (total : ℕ) : ℕ :=
  if useConsensusPercentage then (⌈consensusPercentage * total / 100⌉).toNat
  else minInlierCount

/-- Modelled from the spec: the acceptance logic of getPose, whose
implementation file is not in the repository snapshot (vpKeyPoint.h lines
361-366 only declare it). The Pose Estimator contract of the spec: with
fewer than 4 correspondences the call fails with an
insufficient-correspondences error; otherwise the bounded sampling loop
scores each drawn candidate by its inlier count (the geometric scoring of
the seeded sampler is abstracted as the list of candidate inlier counts)
and tracks the best candidate; the best candidate is accepted iff its
inlier count reaches the consensus floor, and otherwise the call fails
with a pose-not-found error producing no pose result. The returned value
is the accepted inlier count of the pose result. -/
def getPoseRansac (useConsensusPercentage : Bool) (minInlierCount : ℕ)
    (consensusPercentage : ℚ) (total : ℕ) (scores : List ℕ) :
    Except VpError ℕ :=
  if total < 4 then .error .insufficientCorrespondencesError
  else if consensusFloor useConsensusPercentage minInlierCount
      consensusPercentage total ≤ bestScore scores then .ok (bestScore scores)
  else .error .poseNotFoundError

/-! Helper lemmas. -/

theorem epsD_pos : 0 < epsD := by norm_num [epsD]

theorem minDist_le_of_mem :
    ∀ (l : List RawMatch) (m : RawMatch), m ∈ l → minDist l ≤ m.distance
  | [], m, h => absurd h (List.not_mem_nil m)
  | [a], m, h => by
      rw [List.mem_singleton] at h
      rw [h]
      simp [minDist]
  | a :: b :: bs, m, h => by
      rcases List.mem_cons.mp h with rfl | h2
      · simp only [minDist]
        exact min_le_left _ _
      · simp only [minDist]
        exact le_trans (min_le_right _ _) (minDist_le_of_mem (b :: bs) m h2)

theorem varianceDist_nonneg (l : List RawMatch) : 0 ≤ varianceDist l := by
  unfold varianceDist
  apply div_nonneg
  · apply List.sum_nonneg
    intro x hx
    rcases List.mem_map.mp hx with ⟨m, _, rfl⟩
    positivity
  · exact_mod_cast Nat.zero_le _

/-- Faithfulness of the square-free encoding of the stdDistanceThreshold
condition: for a match whose distance is at least dmin (true of every
member of the raw set) and a nonnegative variance, the predicate keepStd
holds exactly when the distance is strictly below dmin plus the standard
deviation, the formula of the spec. -/
theorem keepStd_iff_real (dmin v : ℚ) (m : RawMatch)
    (hd : dmin ≤ m.distance) (hv : 0 ≤ v) :
    keepStd dmin v m = true ↔ ((m.distance : ℝ) < dmin + Real.sqrt v) := by
  unfold keepStd
  rw [decide_eq_true_iff]
  have ha : (0 : ℝ) ≤ (m.distance : ℝ) - (dmin : ℝ) := by
    have : (dmin : ℝ) ≤ (m.distance : ℝ) := by exact_mod_cast hd
    linarith
  have hv2 : (0 : ℝ) ≤ (v : ℝ) := by exact_mod_cast hv
  constructor
  · intro h
    have h2 : ((m.distance : ℝ) - (dmin : ℝ)) ^ 2 < (v : ℝ) := by
      exact_mod_cast h
    have h3 : (m.distance : ℝ) - (dmin : ℝ) < Real.sqrt (v : ℝ) :=
      (Real.lt_sqrt ha).mpr h2
    linarith
  · intro h
    have h3 : (m.distance : ℝ) - (dmin : ℝ) < Real.sqrt (v : ℝ) := by linarith
    have h2 : ((m.distance : ℝ) - (dmin : ℝ)) ^ 2 < (v : ℝ) :=
      (Real.lt_sqrt ha).mp h3
    exact_mod_cast h2

/-- Concrete configuration state used as the instantiation point of the
witnesses: a vpKeyPoint object with an initialized matcher, knn matching
enabled and a ratio-based filter selected. -/
def sampleState : KeyPointState :=
  { m_computeCovariance := false,
    m_covarianceMatrix := [],
    m_filterType := .ratioDistanceThreshold,
    m_matcher := some { crossCheck := false },
    m_matcherName := "BruteForce-Hamming",
    m_matchingFactorThreshold := 2,
    m_matchingRatioThreshold := 1,
    m_nbRansacIterations := 200,
    m_nbRansacMinInlierCount := 100,
    m_ransacConsensusPercentage := 20,
    m_ransacReprojectionError := 6,
    m_ransacThreshold := 1,
    m_useConsensusPercentage := false,
    m_useKnn := true,
    m_useRansacVVS := true }

/-! Claim theorems. -/

/-- C8: getCovarianceMatrix never fails: for every object state it is a
total function; it returns the empty matrix unless both the covariance
computation flag and the ViSP VVS pose estimator are selected, and only in
that case returns the stored covariance matrix. -/
theorem getCovarianceMatrix_total_spec (s : KeyPointState) :
    getCovarianceMatrix s =
      if s.m_computeCovariance ∧ s.m_useRansacVVS then s.m_covarianceMatrix
      else vpMatrixEmpty := by
  unfold getCovarianceMatrix
  by_cases h1 : s.m_computeCovariance <;> by_cases h2 : s.m_useRansacVVS <;>
    simp [h1, h2]

/-- C9: after every call to setFilterMatchingType, the knn flag is true
exactly when the selected filter type is ratioDistanceThreshold or
stdAndRatioDistanceThreshold, and the filter type is stored; hence a
ratio-based filter configured through this setter always has the
two-nearest-neighbor matching pass enabled. -/
theorem setFilterMatchingType_useKnn_iff (s : KeyPointState)
    (t : vpFilterMatchingType) :
    ((setFilterMatchingType s t).m_useKnn = true ↔
      (t = .ratioDistanceThreshold ∨ t = .stdAndRatioDistanceThreshold)) ∧
    (setFilterMatchingType s t).m_filterType = t := by
  unfold setFilterMatchingType
  cases t <;> simp

/-- C10: setUseBruteForceCrossCheck is a silent no-op, raising no error and
changing no observable state, whenever the matcher is not initialized, or
knn matching is enabled, or the matcher name is not exactly BruteForce; in
particular with a ratio-based filter active (knn enabled) the call has no
effect. -/
theorem setUseBruteForceCrossCheck_noop (s : KeyPointState) (b : Bool)
    (h : s.m_matcher = none ∨ s.m_useKnn = true ∨
      s.m_matcherName ≠ "BruteForce") :
    setUseBruteForceCrossCheck s b = s := by
  unfold setUseBruteForceCrossCheck
  cases hm : s.m_matcher with
  | none => rfl
  | some m =>
      have hc : ¬ (s.m_useKnn = false ∧ s.m_matcherName = "BruteForce") := by
        rcases h with h | h | h
        · rw [hm] at h
          exact absurd h (by simp)
        · intro hx
          rw [h] at hx
          exact Bool.noConfusion hx.1
        · intro hx
          exact h hx.2
      rw [if_neg hc]

theorem setUseBruteForceCrossCheck_noop_witness :
    setUseBruteForceCrossCheck sampleState true = sampleState :=
  setUseBruteForceCrossCheck_noop sampleState true (Or.inr (Or.inl rfl))

/-- C6: setMatchingRatioThreshold stores the ratio exactly when it lies in
the interval (0, 1], with the endpoint 1 accepted up to machine epsilon;
for every ratio at or below 0, or at least 1 plus machine epsilon, the
call throws and the stored ratio is unchanged (the error result models the
thrown exception, the object keeping its prior state). -/
theorem setMatchingRatioThreshold_spec (s : KeyPointState) (r : ℚ) :
    ((0 < r ∧ r ≤ 1) →
      setMatchingRatioThreshold s r =
        .ok { s with m_matchingRatioThreshold := r }) ∧
    ((r ≤ 0 ∨ 1 + epsD ≤ r) →
      setMatchingRatioThreshold s r = .error .badValue) := by
  constructor
  · rintro ⟨h1, h2⟩
    unfold setMatchingRatioThreshold
    rw [if_pos]
    refine ⟨h1, ?_⟩
    rcases lt_or_eq_of_le h2 with h | h
    · exact Or.inl h
    · right
      rw [h]
      simpa using epsD_pos
  · intro h
    unfold setMatchingRatioThreshold
    rw [if_neg]
    rintro ⟨h1, h2⟩
    rcases h with h | h
    · exact absurd h1 (not_lt.mpr h)
    · rcases h2 with h2 | h2
      · linarith [epsD_pos]
      · rw [abs_lt] at h2
        linarith [h2.2]

theorem setMatchingRatioThreshold_spec_witness :
    setMatchingRatioThreshold sampleState 1 =
      .ok { sampleState with m_matchingRatioThreshold := 1 } ∧
    setMatchingRatioThreshold sampleState (-1) = .error .badValue :=
  ⟨(setMatchingRatioThreshold_spec sampleState 1).1 ⟨by decide, by decide⟩,
   (setMatchingRatioThreshold_spec sampleState (-1)).2 (Or.inl (by decide))⟩

/-- C7: each of the five positivity-validated configuration setters stores
its argument exactly when the argument is strictly positive, and throws at
configuration time, leaving the stored parameter unchanged, for every
non-positive argument. -/
theorem positivity_setters_spec (s : KeyPointState) (x : ℚ) (n : Int) :
    (0 < x → setMatchingFactorThreshold s x =
      .ok { s with m_matchingFactorThreshold := x }) ∧
    (x ≤ 0 → setMatchingFactorThreshold s x = .error .badValue) ∧
    (0 < n → setRansacIteration s n =
      .ok { s with m_nbRansacIterations := n }) ∧
    (n ≤ 0 → setRansacIteration s n = .error .badValue) ∧
    (0 < x → setRansacReprojectionError s x =
      .ok { s with m_ransacReprojectionError := x }) ∧
    (x ≤ 0 → setRansacReprojectionError s x = .error .badValue) ∧
    (0 < n → setRansacMinInlierCount s n =
      .ok { s with m_nbRansacMinInlierCount := n }) ∧
    (n ≤ 0 → setRansacMinInlierCount s n = .error .badValue) ∧
    (0 < x → setRansacThreshold s x =
      .ok { s with m_ransacThreshold := x }) ∧
    (x ≤ 0 → setRansacThreshold s x = .error .badValue) := by
  unfold setMatchingFactorThreshold setRansacIteration
    setRansacReprojectionError setRansacMinInlierCount setRansacThreshold
  exact ⟨fun h => by rw [if_pos h], fun h => by rw [if_neg (not_lt.mpr h)],
    fun h => by rw [if_pos h], fun h => by rw [if_neg (not_lt.mpr h)],
    fun h => by rw [if_pos h], fun h => by rw [if_neg (not_lt.mpr h)],
    fun h => by rw [if_pos h], fun h => by rw [if_neg (not_lt.mpr h)],
    fun h => by rw [if_pos h], fun h => by rw [if_neg (not_lt.mpr h)]⟩

theorem positivity_setters_spec_witness :
    (setMatchingFactorThreshold sampleState 1 =
      .ok { sampleState with m_matchingFactorThreshold := 1 } ∧
     setMatchingFactorThreshold sampleState (-1) = .error .badValue) ∧
    (setRansacIteration sampleState 1 =
      .ok { sampleState with m_nbRansacIterations := 1 } ∧
     setRansacIteration sampleState (-1) = .error .badValue) ∧
    (setRansacReprojectionError sampleState 1 =
      .ok { sampleState with m_ransacReprojectionError := 1 } ∧
     setRansacReprojectionError sampleState (-1) = .error .badValue) ∧
    (setRansacMinInlierCount sampleState 1 =
      .ok { sampleState with m_nbRansacMinInlierCount := 1 } ∧
     setRansacMinInlierCount sampleState (-1) = .error .badValue) ∧
    (setRansacThreshold sampleState 1 =
      .ok { sampleState with m_ransacThreshold := 1 } ∧
     setRansacThreshold sampleState (-1) = .error .badValue) :=
  ⟨⟨(positivity_setters_spec sampleState 1 1).1 (by decide),
    (positivity_setters_spec sampleState (-1) 1).2.1 (by decide)⟩,
   ⟨(positivity_setters_spec sampleState 1 1).2.2.1 (by decide),
    (positivity_setters_spec sampleState 1 (-1)).2.2.2.1 (by decide)⟩,
   ⟨(positivity_setters_spec sampleState 1 1).2.2.2.2.1 (by decide),
    (positivity_setters_spec sampleState (-1) 1).2.2.2.2.2.1 (by decide)⟩,
   ⟨(positivity_setters_spec sampleState 1 1).2.2.2.2.2.2.1 (by decide),
    (positivity_setters_spec sampleState 1 (-1)).2.2.2.2.2.2.2.1 (by decide)⟩,
   ⟨(positivity_setters_spec sampleState 1 1).2.2.2.2.2.2.2.2.1 (by decide),
    (positivity_setters_spec sampleState (-1) 1).2.2.2.2.2.2.2.2.2
      (by decide)⟩⟩

/-- Concrete raw match used as the instantiation point of the match-filter
witnesses: best distance 1, second-best distance 2. -/
def sampleMatch : RawMatch :=
  { queryIdx := 0, trainIdx := 0, distance := 1, distance2 := some 2 }

/-- C4: on every raw match set on which both single policies are applicable
(ratio in the interval (0, 1] and a second-nearest-neighbor pass recorded
for every match), the survivors of stdAndRatioDistanceThreshold are exactly
the union, by logical OR of the two keep conditions, of the survivors of
stdDistanceThreshold and of ratioDistanceThreshold applied independently to
the same raw matches, and in particular a superset of each. -/
theorem stdAndRatio_or_union (l : List RawMatch) (factor r : ℚ)
    (h1 : 0 < r) (h2 : r ≤ 1) (hknn : ∀ m ∈ l, m.distance2 ≠ none) :
    ∃ S R B,
      filterMatches .stdDistanceThreshold factor r l = .ok S ∧
      filterMatches .ratioDistanceThreshold factor r l = .ok R ∧
      filterMatches .stdAndRatioDistanceThreshold factor r l = .ok B ∧
      (∀ m, m ∈ B ↔ (m ∈ S ∨ m ∈ R)) ∧
      S.Sublist B ∧ R.Sublist B := by
  have hcond : ¬ (r ≤ 0 ∨ 1 < r) := by
    push_neg
    exact ⟨h1, h2⟩
  have hany : (l.any fun m => m.distance2 = none) = false := by
    rw [List.any_eq_false]
    intro m hm
    simpa using hknn m hm
  refine ⟨l.filter (keepStd (minDist l) (varianceDist l)),
    l.filter (keepRatio r),
    l.filter (fun m => keepStd (minDist l) (varianceDist l) m || keepRatio r m),
    ?_, ?_, ?_, ?_, ?_, ?_⟩
  · simp [filterMatches]
  · simp [filterMatches, hcond, hany]
  · simp [filterMatches, hcond, hany]
  · intro m
    simp only [List.mem_filter, Bool.or_eq_true]
    tauto
  · exact List.monotone_filter_right l (fun a ha => by simp [ha])
  · exact List.monotone_filter_right l (fun a ha => by simp [ha])

theorem stdAndRatio_or_union_witness :
    ∃ S R B,
      filterMatches .stdDistanceThreshold 2 1 [sampleMatch] = .ok S ∧
      filterMatches .ratioDistanceThreshold 2 1 [sampleMatch] = .ok R ∧
      filterMatches .stdAndRatioDistanceThreshold 2 1 [sampleMatch] = .ok B ∧
      (∀ m, m ∈ B ↔ (m ∈ S ∨ m ∈ R)) ∧
      S.Sublist B ∧ R.Sublist B :=
  stdAndRatio_or_union [sampleMatch] 2 1 (by decide) (by decide) (by decide)

/-- C5 counterexample: the claim states that constantFactorDistanceThreshold
with factor 1 keeps exactly the matches at the minimum distance; on the
one-element raw set holding sampleMatch the policy keeps nothing, because
no distance is strictly below the minimum distance, while the set of
matches at the minimum distance is the whole set. -/
theorem constantFactor_factorOne_cex :
    filterMatches .constantFactorDistanceThreshold 1 1 [sampleMatch] =
      .ok [] ∧
    [sampleMatch].filter (fun m => m.distance = minDist [sampleMatch]) =
      [sampleMatch] ∧
    ([] : List RawMatch) ≠ [sampleMatch] := by
  refine ⟨?_, ?_, by simp⟩
  · norm_num [filterMatches, keepConstantFactor, minDist, sampleMatch,
      List.filter]
  · norm_num [minDist, sampleMatch, List.filter]

/-- C5 amended: for every raw match set and positive factor, the
constantFactorDistanceThreshold policy keeps a match iff its distance is
strictly below dmin times the factor; in particular with factor 1 it keeps
no match at all (every kept match would need a distance strictly below the
minimum), so the kept set is a subset of the matches at the minimum
distance only vacuously. -/
theorem constantFactor_strict_below (l : List RawMatch) (factor r : ℚ)
    (hf : 0 < factor) :
    (∃ res, filterMatches .constantFactorDistanceThreshold factor r l =
        .ok res ∧
      ∀ m, m ∈ res ↔ (m ∈ l ∧ m.distance < minDist l * factor)) ∧
    (factor = 1 →
      filterMatches .constantFactorDistanceThreshold factor r l = .ok []) := by
  have hnot : ¬ factor ≤ 0 := not_le.mpr hf
  constructor
  · refine ⟨l.filter (keepConstantFactor (minDist l) factor), ?_, ?_⟩
    · simp [filterMatches, hnot]
    · intro m
      simp [List.mem_filter, keepConstantFactor]
  · rintro rfl
    simp only [filterMatches, if_neg hnot]
    have hempty : l.filter (keepConstantFactor (minDist l) 1) = [] := by
      rw [List.filter_eq_nil_iff]
      intro m hm
      unfold keepConstantFactor
      rw [mul_one]
      simp only [decide_eq_true_eq]
      exact not_lt.mpr (minDist_le_of_mem l m hm)
    rw [hempty]

theorem constantFactor_strict_below_witness :
    (∃ res, filterMatches .constantFactorDistanceThreshold 2 1 [sampleMatch] =
        .ok res ∧
      ∀ m, m ∈ res ↔ (m ∈ [sampleMatch] ∧
        m.distance < minDist [sampleMatch] * 2)) ∧
    ((2 : ℚ) = 1 →
      filterMatches .constantFactorDistanceThreshold 2 1 [sampleMatch] =
        .ok []) :=
  constantFactor_strict_below [sampleMatch] 2 1 (by decide)

/-- C2: appending a training batch fails with a size-mismatch error, the
store left unchanged (the error result models the thrown exception),
whenever the keypoint count differs from the descriptor row count or, when
3-D points are supplied, from the object point count; every successful
append preserves the equal-lengths invariant of the train collections, and
the initial empty store satisfies it, so after every successful append the
train keypoint, descriptor and object-point collections have equal
lengths. -/
theorem buildReference_append_spec (s : RefModelStore)
    (kps : List KeyPoint2D) (descs : List (List ℚ))
    (pts : Option (List Point3D)) (imageId : Int) :
    ((kps.length ≠ descs.length ∨
        ∃ ps, pts = some ps ∧ kps.length ≠ ps.length) →
      appendTraining s kps descs pts imageId = .error .sizeMismatchError) ∧
    (∀ s2, appendTraining s kps descs pts imageId = .ok s2 →
      storeInvariant s → storeInvariant s2) ∧
    storeInvariant emptyStore := by
  refine ⟨?_, ?_, ⟨rfl, rfl, rfl⟩⟩
  · intro h
    rcases h with h | ⟨ps, hps, h⟩
    · unfold appendTraining
      rw [if_pos h]
    · subst hps
      by_cases hlen : kps.length ≠ descs.length
      · unfold appendTraining
        rw [if_pos hlen]
      · simp only [appendTraining, if_neg hlen]
        rw [if_pos h]
  · intro s2 heq hinv
    obtain ⟨i1, i2, i3⟩ := hinv
    by_cases hlen : kps.length ≠ descs.length
    · unfold appendTraining at heq
      rw [if_pos hlen] at heq
      exact absurd heq (by simp)
    · have hlen2 : kps.length = descs.length := not_not.mp hlen
      cases pts with
      | none =>
          simp only [appendTraining, if_neg hlen] at heq
          injection heq with h2
          subst h2
          unfold storeInvariant
          simp only [List.length_append, List.length_replicate]
          omega
      | some ps =>
          simp only [appendTraining, if_neg hlen] at heq
          by_cases hlen3 : kps.length ≠ ps.length
          · rw [if_pos hlen3] at heq
            exact absurd heq (by simp)
          · rw [if_neg hlen3] at heq
            have hlen4 : kps.length = ps.length := not_not.mp hlen3
            injection heq with h2
            subst h2
            unfold storeInvariant
            simp only [List.length_append, List.length_replicate,
              List.length_map]
            omega

theorem buildReference_append_spec_witness :
    (appendTraining emptyStore [{ x := 3, y := 4 }] [] none 1 =
      .error .sizeMismatchError) ∧
    (∀ s2, appendTraining emptyStore [{ x := 3, y := 4 }] [[5, 6]] none 1 =
        .ok s2 → storeInvariant emptyStore → storeInvariant s2) ∧
    storeInvariant emptyStore :=
  ⟨(buildReference_append_spec emptyStore [{ x := 3, y := 4 }] [] none 1).1
      (Or.inl (by decide)),
   (buildReference_append_spec emptyStore [{ x := 3, y := 4 }] [[5, 6]]
      none 1).2.1,
   (buildReference_append_spec emptyStore [] [] none 1).2.2⟩

theorem foldl_max_lt (k : ℕ) :
    ∀ (l : List ℕ) (a : ℕ), a < k → (∀ c ∈ l, c < k) → l.foldl max a < k
  | [], _, ha, _ => ha
  | c :: cs, a, ha, h => by
      rw [List.foldl_cons]
      exact foldl_max_lt k cs (max a c)
        (max_lt ha (h c (List.mem_cons_self c cs)))
        (fun x hx => h x (List.mem_cons_of_mem c hx))

/-- C3: with the absolute minimum-inlier-count consensus policy active,
pose estimation fails with a pose-not-found error, producing no pose
result, on every correspondence set in which every candidate achieves at
most minInlierCount minus one inliers, and succeeds when the best
achievable candidate reaches exactly minInlierCount inliers. -/
theorem getPose_minInlierCount_acceptance (minInlierCount total : ℕ)
    (consPct : ℚ) (scores : List ℕ) (hmin : 1 ≤ minInlierCount)
    (htot : 4 ≤ total) :
    ((∀ c ∈ scores, c ≤ minInlierCount - 1) →
      getPoseRansac false minInlierCount consPct total scores =
        .error .poseNotFoundError) ∧
    (bestScore scores = minInlierCount →
      getPoseRansac false minInlierCount consPct total scores =
        .ok minInlierCount) ∧
    (minInlierCount ≤ bestScore scores ↔
      ∃ res, getPoseRansac false minInlierCount consPct total scores =
        .ok res) := by
  have hnot4 : ¬ total < 4 := not_lt.mpr htot
  have hfloor : consensusFloor false minInlierCount consPct total =
      minInlierCount := rfl
  refine ⟨?_, ?_, ?_⟩
  · intro h
    have hbest : bestScore scores < minInlierCount := by
      unfold bestScore
      exact foldl_max_lt _ scores 0 (by omega)
        (fun c hc => by have := h c hc; omega)
    unfold getPoseRansac
    rw [if_neg hnot4, hfloor, if_neg (not_le.mpr hbest)]
  · intro h
    unfold getPoseRansac
    rw [if_neg hnot4, hfloor, h, if_pos (le_refl _)]
  · unfold getPoseRansac
    rw [if_neg hnot4, hfloor]
    constructor
    · intro h
      rw [if_pos h]
      exact ⟨bestScore scores, rfl⟩
    · rintro ⟨res, hres⟩
      by_cases h : minInlierCount ≤ bestScore scores
      · exact h
      · rw [if_neg h] at hres
        exact absurd hres (by simp)

theorem getPose_minInlierCount_acceptance_witness :
    getPoseRansac false 4 20 4 [3, 2] = .error .poseNotFoundError ∧
    getPoseRansac false 4 20 4 [4, 2] = .ok 4 :=
  ⟨(getPose_minInlierCount_acceptance 4 4 20 [3, 2] (by decide)
      (by decide)).1 (by decide),
   (getPose_minInlierCount_acceptance 4 4 20 [4, 2] (by decide)
      (by decide)).2.1 (by decide)⟩

theorem decDesc_enc (w : ℕ) (row : List ℚ) (hw : row.length = w)
    (tail : List ℚ) : decDesc w (row ++ tail) = some (row, tail) := by
  unfold decDesc
  rw [if_neg]
  · subst hw
    rw [List.take_left, List.drop_left]
  · subst hw
    rw [List.length_append]
    omega

theorem decKeyPoint_enc (k : KeyPoint2D) (tail : List ℚ) :
    decKeyPoint (encKeyPoint k ++ tail) = some (k, tail) := rfl

theorem decPoint3_enc (p : Option Point3D) (tail : List ℚ) :
    decPoint3 (encPoint3 p ++ tail) = some (p, tail) := by
  cases p with
  | none =>
      simp only [encPoint3, List.cons_append, List.nil_append, decPoint3]
      norm_num
  | some q =>
      simp only [encPoint3, List.cons_append, List.nil_append, decPoint3]
      norm_num

theorem decId_enc (i : Int) (tail : List ℚ) :
    decId (encId i ++ tail) = some (i, tail) := by
  simp [encId, decId, Rat.den_intCast, Rat.num_intCast]

theorem parseNat_natCast (n : ℕ) : parseNat (n : ℚ) = some n := by
  simp [parseNat, Rat.den_natCast, Rat.num_natCast]

theorem readItems_encList {α : Type} (enc : α → List ℚ)
    (dec : List ℚ → Option (α × List ℚ)) (items : List α) (rest : List ℚ)
    (h : ∀ a ∈ items, ∀ tail, dec (enc a ++ tail) = some (a, tail)) :
    readItems dec items.length (encList enc items ++ rest) =
      some (items, rest) := by
  induction items with
  | nil => simp [encList, readItems]
  | cons a as ih =>
      rw [List.length_cons]
      simp only [encList, List.append_assoc]
      simp only [readItems, h a (List.mem_cons_self a as),
        ih (fun x hx tail => h x (List.mem_cons_of_mem a hx) tail)]

/-- C1: saving the learning data of a populated Reference Model Store and
loading it back in the same mode with append false restores a store equal
to the original. In the model a stored token is the exact value the binary
encoding preserves bit for bit, and also the value the text encoding
prints; the equality proved here is exact equality of stores, which for the
text mode means equality apart from the precision of the printed
floating-point representation. The hypotheses say the store is well
formed: equal collection lengths and uniform descriptor width. -/
theorem saveLoad_roundTrip (prior s : RefModelStore) (b : Bool)
    (hkd : s.trainKeyPoints.length = s.trainDescriptors.length)
    (hkp : s.trainKeyPoints.length = s.trainPoints.length)
    (hki : s.trainKeyPoints.length = s.trainImageIds.length)
    (hw : ∀ row ∈ s.trainDescriptors, row.length = descWidth s) :
    deserializeStore b false prior (serializeStore s b) = .ok s := by
  obtain ⟨kps, descs, pts, ids⟩ := s
  simp only at hkd hkp hki hw
  have h1 : readItems (decDesc (descWidth ⟨kps, descs, pts, ids⟩)) kps.length
      (encList id descs ++ (encList encKeyPoint kps ++
        (encList encPoint3 pts ++ encList encId ids))) =
      some (descs, encList encKeyPoint kps ++
        (encList encPoint3 pts ++ encList encId ids)) := by
    rw [hkd]
    exact readItems_encList id _ descs _
      (fun row hr tail => decDesc_enc _ row (hw row hr) tail)
  have h2 : readItems decKeyPoint kps.length
      (encList encKeyPoint kps ++
        (encList encPoint3 pts ++ encList encId ids)) =
      some (kps, encList encPoint3 pts ++ encList encId ids) :=
    readItems_encList encKeyPoint _ kps _
      (fun k _ tail => decKeyPoint_enc k tail)
  have h3 : readItems decPoint3 kps.length
      (encList encPoint3 pts ++ encList encId ids) =
      some (pts, encList encId ids) := by
    rw [hkp]
    exact readItems_encList encPoint3 _ pts _
      (fun p _ tail => decPoint3_enc p tail)
  have h4 : readItems decId kps.length (encList encId ids ++ []) =
      some (ids, []) := by
    rw [hki]
    exact readItems_encList encId _ ids []
      (fun i _ tail => decId_enc i tail)
  rw [show encList encId ids ++ [] = encList encId ids from
    List.append_nil _] at h4
  simp only [serializeStore, deserializeStore, List.cons_append,
    List.nil_append, List.append_assoc, ne_eq, not_true_eq_false, if_false,
    parseNat_natCast, h1, h2, h3, h4]
  simp only [if_true, Bool.false_eq_true, if_false]

/-- Concrete populated store used as the instantiation point of the
round-trip witness: one keypoint with a descriptor row of width two, a
present 3-D point, and one training image identifier. -/
def sampleStore : RefModelStore :=
  { trainKeyPoints := [{ x := 3, y := 4 }],
    trainDescriptors := [[5, 6]],
    trainPoints := [some { px := 7, py := 8, pz := 9 }],
    trainImageIds := [1] }

theorem saveLoad_roundTrip_witness :
    deserializeStore true false emptyStore
      (serializeStore sampleStore true) = .ok sampleStore ∧
    deserializeStore false false emptyStore
      (serializeStore sampleStore false) = .ok sampleStore :=
  ⟨saveLoad_roundTrip emptyStore sampleStore true (by decide) (by decide)
      (by decide) (by decide),
   saveLoad_roundTrip emptyStore sampleStore false (by decide) (by decide)
      (by decide) (by decide)⟩

end VpKeyPoint
